import Mathlib

/-!
# Shallow embedding of jwctl's interactive list-selection widget

This file embeds, in Lean 4, the parts of the `jwctl` CLI relevant to its
interactive terminal widget:

* `src/terminal.rs` — the `StatefulList` model (`next`, `previous`,
  `unselect`), the key dispatch of `run_list_selection`, and
  `restore_terminal`;
* `src/main.rs`, `DbCommands::Login` arm — the sequence
  `setup_terminal` / `run_list_selection` / `restore_terminal` with `?`
  error propagation.

Machine integers (`usize`) are modelled as `Nat`; the one subtraction in
the source that can underflow (`self.items.len() - 1`) is modelled by a
checked subtraction returning `Option Nat`, where `none` stands for the
arithmetic-underflow panic of a debug build. Fallible paths return
`Option` / explicit error constructors carrying the `anyhow` message
strings of the source.
-/

set_option autoImplicit false

namespace Jwctl

/-- Candidate type: `run_list_selection` is invoked on `(&String, &String)`
(id, name) pairs collected in `main.rs:364`. -/
abbrev Cand := String × String

/-- Rust `usize` subtraction `a - b`: underflow panics (in a debug build),
modelled as `none`. -/
def usizeSub (a b : Nat) : Option Nat :=
  if b ≤ a then some (a - b) else none

/-- ratatui's `ListState`: a viewport offset and an optional selected index. -/
structure ListState where
  offset : Nat
  selected : Option Nat
deriving DecidableEq, Repr

/-- ratatui's `ListState::default()`: offset 0, nothing selected. -/
def ListState.default : ListState := ⟨0, none⟩

/-- ratatui's `ListState::select`: stores the index; when the index is
`None` the offset is also reset to 0. -/
def ListState.select (s : ListState) (idx : Option Nat) : ListState :=
  { selected := idx, offset := if idx.isNone then 0 else s.offset }

/-- `StatefulList<T>` from `src/terminal.rs:11`. -/
structure StatefulList (α : Type) where
  state : ListState
  items : List α
deriving DecidableEq, Repr

namespace StatefulList

/-- `StatefulList::with_items` (`src/terminal.rs:17`). -/
def with_items {α : Type} (items : List α) : StatefulList α :=
  { state := ListState.default, items := items }

/-- `StatefulList::next` (`src/terminal.rs:24`). When an index is selected
the source computes `self.items.len() - 1`, which underflows on an empty
list; `none` models that panic. -/
def next {α : Type} (l : StatefulList α) : Option (StatefulList α) :=
  match l.state.selected with
  | some i =>
      (usizeSub l.items.length 1).map (fun last =>
        { l with state := l.state.select (some (if last ≤ i then 0 else i + 1)) })
  | none => some { l with state := l.state.select (some 0) }

/-- `StatefulList::previous` (`src/terminal.rs:38`). When index 0 is
selected the source computes `self.items.len() - 1`, which underflows on
an empty list; `none` models that panic. -/
def previous {α : Type} (l : StatefulList α) : Option (StatefulList α) :=
  match l.state.selected with
  | some i =>
      if i = 0 then
        (usizeSub l.items.length 1).map (fun last =>
          { l with state := l.state.select (some last) })
      else some { l with state := l.state.select (some (i - 1)) }
  | none => some { l with state := l.state.select (some 0) }

/-- `StatefulList::unselect` (`src/terminal.rs:52`). -/
def unselect {α : Type} (l : StatefulList α) : StatefulList α :=
  { l with state := l.state.select none }

end StatefulList

/-- `next` iterated `n` times, propagating the panic (`none`). -/
def nextN {α : Type} (l : StatefulList α) : Nat → Option (StatefulList α)
  | 0 => some l
  | n + 1 => (StatefulList.next l).bind (fun l2 => nextN l2 n)

/-- The subset of crossterm `KeyCode` distinguished by the dispatch in
`run_list_selection` (`src/terminal.rs:103`); every other code falls into
the wildcard arm, modelled by `otherKey`. -/
inductive KeyCode where
  | char (c : Char)
  | enter
  | left
  | down
  | up
  | otherKey
deriving DecidableEq, Repr

/-- crossterm `KeyModifiers`: a set of bitflags, compared for exact
equality in the source (`key.modifiers == KeyModifiers::CONTROL`). -/
structure KeyModifiers where
  shift : Bool
  control : Bool
  alt : Bool
  sup : Bool
  hyper : Bool
  meta : Bool
deriving DecidableEq, Repr

/-- `KeyModifiers::NONE`. -/
def KeyModifiers.NONE : KeyModifiers := ⟨false, false, false, false, false, false⟩

/-- `KeyModifiers::CONTROL`. -/
def KeyModifiers.CONTROL : KeyModifiers := ⟨false, true, false, false, false, false⟩

/-- crossterm `KeyEventKind`; only `Press` triggers the dispatch
(`src/terminal.rs:102`). -/
inductive KeyEventKind where
  | press
  | release
  | rep
deriving DecidableEq, Repr

/-- crossterm `KeyEvent`, restricted to the fields the source reads. -/
structure KeyEvent where
  code : KeyCode
  modifiers : KeyModifiers
  kind : KeyEventKind
deriving DecidableEq, Repr

/-- Outcome of one loop iteration of `run_list_selection` on a key event:
keep looping with an updated model, return `Ok(selected)`, or return
`Err(Error::msg msg)`. -/
inductive StepResult (α : Type) where
  | cont (l : StatefulList α)
  | ok (v : α)
  | err (msg : String)
deriving DecidableEq, Repr

/-- One iteration of the event-dispatch of `run_list_selection`
(`src/terminal.rs:100`–`128`): non-press events and unrecognised keys are
no-ops; `q` and Ctrl+C return `Err("Nothing selected")`; Enter returns the
selected item, `Err("Nothing selected")` with no selection, or
`Err("Invalid selection")` when the index is out of range; Left/Down/Up
update the model (`none` models a panic inside `next`/`previous`). -/
def step {α : Type} (l : StatefulList α) (ev : KeyEvent) : Option (StepResult α) :=
  if ev.kind = KeyEventKind.press then
    match ev.code with
    | .char c =>
        if c = 'q' then some (.err "Nothing selected")
        else if c = 'c' then
          if ev.modifiers = KeyModifiers.CONTROL then some (.err "Nothing selected")
          else some (.cont l)
        else some (.cont l)
    | .enter =>
        match l.state.selected with
        | none => some (.err "Nothing selected")
        | some i =>
            match l.items.get? i with
            | none => some (.err "Invalid selection")
            | some v => some (.ok v)
    | .left => some (.cont (StatefulList.unselect l))
    | .down => (StatefulList.next l).map .cont
    | .up => (StatefulList.previous l).map .cont
    | .otherKey => some (.cont l)
  else some (.cont l)

/-- The model state of `run_list_selection` before its first loop
iteration (`src/terminal.rs:75`–`76`): `with_items` followed by an
unconditional `select(Some(0))`. -/
def initialList {α : Type} (items : List α) : StatefulList α :=
  let l := StatefulList.with_items items
  { l with state := l.state.select (some 0) }

/-- Run the loop of `run_list_selection` over a finite sequence of key
events, stopping at the first returned value or error (or panic). If the
events are exhausted the loop is still running (`cont`). -/
def runEvents {α : Type} (l : StatefulList α) : List KeyEvent → Option (StepResult α)
  | [] => some (.cont l)
  | ev :: evs =>
      match step l ev with
      | some (StepResult.cont l2) => runEvents l2 evs
      | r => r

/-- `run_list_selection` (`src/terminal.rs:71`) as a function of the
supplied items and the sequence of key events delivered by the terminal. -/
def run_list_selection {α : Type} (items : List α) (evs : List KeyEvent) :
    Option (StepResult α) :=
  runEvents (initialList items) evs

/-- The terminal-mode state threaded through `main`'s `DbCommands::Login`
arm: whether raw mode is active, and how many times `restore_terminal` has
run. -/
structure TerminalState where
  rawMode : Bool
  restoreCount : Nat
deriving DecidableEq, Repr

/-- `setup_terminal` (`src/terminal.rs:57`): enables raw mode. -/
def setup_terminal (t : TerminalState) : TerminalState :=
  { t with rawMode := true }

/-- `restore_terminal` (`src/terminal.rs:135`): clears the widget and
disables raw mode. -/
def restore_terminal (t : TerminalState) : TerminalState :=
  { rawMode := false, restoreCount := t.restoreCount + 1 }

/-- Result of `run_list_selection` as observed by its caller in `main`:
an `anyhow::Result<(&String, &String)>`, i.e. either a pair or an error
message. -/
inductive SelectionResult where
  | ok (kv : Cand)
  | err (msg : String)
deriving DecidableEq, Repr

/-- The `DbCommands::Login` arm of `main` (`src/main.rs:374`–`376`):
`setup_terminal`, then `run_list_selection` whose error is propagated by
`?`, then `restore_terminal`. `restore_terminal` is only reached when the
selection returns `Ok`. -/
def dbLoginArm (sel : SelectionResult) (t : TerminalState) :
    Except String Cand × TerminalState :=
  let t1 := setup_terminal t
  match sel with
  | .err msg => (Except.error msg, t1)
  | .ok kv => (Except.ok kv, restore_terminal t1)

/-! ## Theorems about the claims -/

/-- C8: with the list [("a","Alpha"), ("b","Beta"), ("c","Gamma")] and
starting index 0, the sequence Down, Down, Down wraps past the end and
leaves the index at 0, after which Enter returns ("a","Alpha"); and a
single Up from index 0 wraps to index 2, after which Enter returns
("c","Gamma"). -/
theorem c8_scenarios :
    (run_list_selection [("a", "Alpha"), ("b", "Beta"), ("c", "Gamma")]
        [⟨.down, .NONE, .press⟩, ⟨.down, .NONE, .press⟩, ⟨.down, .NONE, .press⟩]
      = some (.cont ⟨⟨0, some 0⟩, [("a", "Alpha"), ("b", "Beta"), ("c", "Gamma")]⟩))
    ∧ (run_list_selection [("a", "Alpha"), ("b", "Beta"), ("c", "Gamma")]
        [⟨.down, .NONE, .press⟩, ⟨.down, .NONE, .press⟩, ⟨.down, .NONE, .press⟩,
         ⟨.enter, .NONE, .press⟩]
      = some (.ok ("a", "Alpha")))
    ∧ (run_list_selection [("a", "Alpha"), ("b", "Beta"), ("c", "Gamma")]
        [⟨.up, .NONE, .press⟩]
      = some (.cont ⟨⟨0, some 2⟩, [("a", "Alpha"), ("b", "Beta"), ("c", "Gamma")]⟩))
    ∧ (run_list_selection [("a", "Alpha"), ("b", "Beta"), ("c", "Gamma")]
        [⟨.up, .NONE, .press⟩, ⟨.enter, .NONE, .press⟩]
      = some (.ok ("c", "Gamma"))) := by
  decide

/-- C4 (counterexample): the claim says the pre-loop selection index is
absent for an empty candidate list, but `run_list_selection` selects
index 0 unconditionally (`src/terminal.rs:76`), so on the empty list the
pre-loop state is `some 0`, not `none`. -/
theorem c4_counterexample :
    ¬ (∀ (items : List Cand),
        (initialList items).state.selected
          = if items.isEmpty then none else some 0) := by
  intro h
  have h0 := h []
  simp [initialList, StatefulList.with_items, ListState.default, ListState.select] at h0

/-- C4 (amended): at the start of `run_list_selection`, before the first
loop iteration, the selection index equals 0 unconditionally — for the
empty candidate list as well as for non-empty ones. -/
theorem c4_amended (items : List Cand) :
    (initialList items).state.selected = some 0 := rfl

/-- C9: on a non-empty list, calling either `next` or `previous` when no
index is selected succeeds and sets the selection index to 0; in
particular `previous` from the unselected state selects the first
element, not the last. -/
theorem c9_none_selects_zero (l : StatefulList Cand)
    (_hne : l.items ≠ []) (h : l.state.selected = none) :
    (∃ l2, StatefulList.next l = some l2 ∧ l2.state.selected = some 0)
    ∧ (∃ l2, StatefulList.previous l = some l2 ∧ l2.state.selected = some 0) := by
  refine ⟨⟨{ l with state := l.state.select (some 0) }, ?_, rfl⟩,
    ⟨{ l with state := l.state.select (some 0) }, ?_, rfl⟩⟩ <;>
    simp [StatefulList.next, StatefulList.previous, h]

/-- C9 witness: instantiation on the concrete list [("a","A"), ("b","B")]
with nothing selected. -/
theorem c9_witness :
    (∃ l2, StatefulList.next ⟨⟨0, none⟩, [("a", "A"), ("b", "B")]⟩ = some l2
        ∧ l2.state.selected = some 0)
    ∧ (∃ l2, StatefulList.previous ⟨⟨0, none⟩, [("a", "A"), ("b", "B")]⟩ = some l2
        ∧ l2.state.selected = some 0) :=
  c9_none_selects_zero ⟨⟨0, none⟩, [("a", "A"), ("b", "B")]⟩ (by decide) rfl

/-- C10: a press of 'c' cancels the loop (returns `Err("Nothing
selected")`) exactly when its modifier set is exactly `CONTROL`; with any
other modifier set — none, or `CONTROL` combined with further modifiers —
it is a no-op that keeps the loop running with the model unchanged. -/
theorem c10_ctrl_c_exact (l : StatefulList Cand) (m : KeyModifiers) :
    step l ⟨.char 'c', m, .press⟩
      = if m = KeyModifiers.CONTROL
        then some (.err "Nothing selected")
        else some (.cont l) := by
  by_cases h : m = KeyModifiers.CONTROL <;> simp [step, h]

/-- C2 (counterexample): the claim says pressing Enter with no selected
index is a no-op that keeps the loop running; but the source
(`src/terminal.rs:108`–`111`) propagates `Err("Nothing selected")` with
`?`, ending the loop, as the state with items [("a","A")] and no
selection shows. -/
theorem c2_counterexample :
    ¬ (∀ (l : StatefulList Cand), l.state.selected = none →
        step l ⟨.enter, .NONE, .press⟩ = some (.cont l)) := by
  intro h
  have h0 := h ⟨⟨0, none⟩, [("a", "A")]⟩ rfl
  exact absurd h0 (by decide)

/-- C2 (amended): pressing Enter while an in-range index `i` is selected
returns exactly the (key, label) pair at position `i` of the supplied
list, unmodified; pressing Enter while no index is selected returns the
error "Nothing selected", which terminates the loop (it is not a
no-op). -/
theorem c2_amended (l : StatefulList Cand) :
    (∀ (i : Nat) (h : i < l.items.length), l.state.selected = some i →
        step l ⟨.enter, .NONE, .press⟩ = some (.ok (l.items.get ⟨i, h⟩)))
    ∧ (l.state.selected = none →
        step l ⟨.enter, .NONE, .press⟩ = some (.err "Nothing selected")) := by
  constructor
  · intro i h hsel
    simp [step, hsel, List.getElem?_eq_getElem h]
  · intro hsel
    simp [step, hsel]

/-- C2 witness: Enter on [("a","A"), ("b","B")] with index 1 selected
returns ("b","B"); Enter with no selection returns the error. -/
theorem c2_witness :
    step (⟨⟨0, some 1⟩, [("a", "A"), ("b", "B")]⟩ : StatefulList Cand)
        ⟨.enter, .NONE, .press⟩ = some (.ok ("b", "B"))
    ∧ step (⟨⟨0, none⟩, [("a", "A"), ("b", "B")]⟩ : StatefulList Cand)
        ⟨.enter, .NONE, .press⟩ = some (.err "Nothing selected") :=
  ⟨(c2_amended ⟨⟨0, some 1⟩, [("a", "A"), ("b", "B")]⟩).1 1 (by decide) rfl,
   (c2_amended ⟨⟨0, none⟩, [("a", "A"), ("b", "B")]⟩).2 rfl⟩

/-- C3 (counterexample): the claim says that on the empty candidate list
`next`, `previous`, `unselect` never fail and never leave a selected
index, whatever the starting selection state; but `next` on the empty
list with nothing selected succeeds and selects index 0
(`src/terminal.rs:33`–`35`). -/
theorem c3_counterexample :
    ¬ (∀ (l : StatefulList Cand), l.items = [] →
        ((StatefulList.next l).isSome
            ∧ ∀ l2, StatefulList.next l = some l2 → l2.state.selected = none)
        ∧ ((StatefulList.previous l).isSome
            ∧ ∀ l2, StatefulList.previous l = some l2 → l2.state.selected = none)
        ∧ (StatefulList.unselect l).state.selected = none) := by
  intro h
  have h0 := (h ⟨⟨0, none⟩, []⟩ rfl).1.2 ⟨⟨0, some 0⟩, []⟩ (by decide)
  exact absurd h0 (by decide)

/-- C3 (amended): on the empty candidate list, `unselect` never fails and
clears the selection; `next` and `previous` invoked with no selected
index never fail but select index 0; `next` invoked with a selected index
panics on the underflowing `items.len() - 1`, as does `previous` from
selected index 0, while `previous` from a positive selected index `i`
succeeds and selects `i - 1`. -/
theorem c3_amended (l : StatefulList Cand) (he : l.items = []) :
    (StatefulList.unselect l).state.selected = none
    ∧ (l.state.selected = none →
        StatefulList.next l = some { l with state := l.state.select (some 0) }
        ∧ StatefulList.previous l = some { l with state := l.state.select (some 0) })
    ∧ (∀ i, l.state.selected = some i →
        StatefulList.next l = none
        ∧ (i = 0 → StatefulList.previous l = none)
        ∧ (i ≠ 0 → StatefulList.previous l
            = some { l with state := l.state.select (some (i - 1)) })) := by
  refine ⟨rfl, ?_, ?_⟩
  · intro hsel
    simp [StatefulList.next, StatefulList.previous, hsel]
  · intro i hsel
    refine ⟨?_, ?_, ?_⟩
    · simp [StatefulList.next, hsel, he, usizeSub]
    · intro h0
      simp [StatefulList.previous, hsel, h0, he, usizeSub]
    · intro h0
      simp [StatefulList.previous, hsel, h0]

/-- C3 witness: on the empty list with index 1 selected, `unselect`
clears the selection, `next` panics, and `previous` selects 0. -/
theorem c3_witness :
    (StatefulList.unselect (⟨⟨0, some 1⟩, []⟩ : StatefulList Cand)).state.selected = none
    ∧ StatefulList.next (⟨⟨0, some 1⟩, []⟩ : StatefulList Cand) = none
    ∧ StatefulList.previous (⟨⟨0, some 1⟩, []⟩ : StatefulList Cand)
        = some ⟨⟨0, some 0⟩, []⟩ := by
  have h := c3_amended ⟨⟨0, some 1⟩, []⟩ rfl
  exact ⟨h.1, (h.2.2 1 rfl).1, (h.2.2 1 rfl).2.2 (by decide)⟩

/-- C5 (counterexample): the claim says the cancellation outcome of 'q'
or Ctrl+C is distinguishable from every non-cancellation failure the
widget returns; but Enter with no selection — a non-cancellation failure
path (`src/terminal.rs:108`–`111`) — returns a value identical to the 'q'
cancellation result, `Err("Nothing selected")`. -/
theorem c5_counterexample :
    ¬ (∀ (l : StatefulList Cand),
        step l ⟨.enter, .NONE, .press⟩ ≠ step l ⟨.char 'q', .NONE, .press⟩) := by
  intro h
  exact h ⟨⟨0, none⟩, [("a", "A")]⟩ (by decide)

/-- C5 (amended): pressing 'q' or Ctrl+C returns the error
"Nothing selected"; this value is identical to the error returned by
Enter when no index is selected, so the caller cannot distinguish the
cancellation from that failure (the code returns untyped `anyhow`
errors, and `main` propagates them all alike with `?`). -/
theorem c5_amended (l : StatefulList Cand) (h : l.state.selected = none) :
    step l ⟨.char 'q', .NONE, .press⟩ = some (.err "Nothing selected")
    ∧ step l ⟨.char 'c', .CONTROL, .press⟩ = some (.err "Nothing selected")
    ∧ step l ⟨.enter, .NONE, .press⟩ = step l ⟨.char 'q', .NONE, .press⟩ := by
  refine ⟨rfl, rfl, ?_⟩
  simp [step, h]

/-- C5 witness: instantiation on [("a","A")] with nothing selected. -/
theorem c5_witness :
    step (⟨⟨0, none⟩, [("a", "A")]⟩ : StatefulList Cand)
        ⟨.char 'q', .NONE, .press⟩ = some (.err "Nothing selected")
    ∧ step (⟨⟨0, none⟩, [("a", "A")]⟩ : StatefulList Cand)
        ⟨.char 'c', .CONTROL, .press⟩ = some (.err "Nothing selected")
    ∧ step (⟨⟨0, none⟩, [("a", "A")]⟩ : StatefulList Cand)
        ⟨.enter, .NONE, .press⟩
      = step (⟨⟨0, none⟩, [("a", "A")]⟩ : StatefulList Cand)
        ⟨.char 'q', .NONE, .press⟩ :=
  c5_amended ⟨⟨0, none⟩, [("a", "A")]⟩ rfl

/-- Helper: `next` on a state with an in-range selected index `i` moves to
`(i + 1) % length`, keeping the offset and the items. -/
theorem next_selected {α : Type} (off i : Nat) (items : List α)
    (hlt : i < items.length) :
    StatefulList.next ⟨⟨off, some i⟩, items⟩
      = some ⟨⟨off, some ((i + 1) % items.length)⟩, items⟩ := by
  have hpos : 0 < items.length := Nat.lt_of_le_of_lt (Nat.zero_le i) hlt
  have key : (if items.length ≤ i + 1 then 0 else i + 1) = (i + 1) % items.length := by
    by_cases hc : items.length ≤ i + 1
    · have h2 : i + 1 = items.length := by omega
      rw [if_pos hc, h2, Nat.mod_self]
    · have h2 : i + 1 < items.length := by omega
      rw [if_neg hc, Nat.mod_eq_of_lt h2]
  have hone : 1 ≤ items.length := hpos
  simp only [StatefulList.next, usizeSub, ListState.select]
  rw [if_pos hone]
  simp [key]

/-- Helper: `nextN` on a state with an in-range selected index `i` moves to
`(i + k) % length`. -/
theorem nextN_selected {α : Type} (off i k : Nat) (items : List α)
    (hlt : i < items.length) :
    nextN ⟨⟨off, some i⟩, items⟩ k
      = some ⟨⟨off, some ((i + k) % items.length)⟩, items⟩ := by
  have hpos : 0 < items.length := Nat.lt_of_le_of_lt (Nat.zero_le i) hlt
  induction k generalizing i with
  | zero => simp [nextN, Nat.mod_eq_of_lt hlt]
  | succ n ih =>
      rw [nextN, next_selected off i items hlt, Option.some_bind,
        ih ((i + 1) % items.length) (Nat.mod_lt _ hpos)]
      have harith : ((i + 1) % items.length + n) % items.length
          = (i + (n + 1)) % items.length := by
        rw [Nat.mod_add_mod]
        congr 1
        omega
      rw [harith]

/-- C6 (counterexample): the claim says `previous` inverts `next` for
every selection state of a non-empty list; but starting from the
unselected state on [("a","A")], `next` selects index 0 and `previous`
then yields index 0 again, not the original unselected state. -/
theorem c6_counterexample :
    ¬ (∀ (l : StatefulList Cand), l.items ≠ [] →
        ∃ l2, StatefulList.next l = some l2
          ∧ StatefulList.previous l2 = some l) := by
  intro h
  obtain ⟨l2, h1, h2⟩ := h ⟨⟨0, none⟩, [("a", "A")]⟩ (by decide)
  have hv : StatefulList.next ⟨⟨0, none⟩, [("a", "A")]⟩
      = some ⟨⟨0, some 0⟩, [("a", "A")]⟩ := by decide
  rw [hv] at h1
  cases h1
  exact absurd h2 (by decide)

/-- C6 (amended): for every non-empty candidate list and every state in
which an in-range index is selected, `previous()` after `next()` restores
the state that held before the `next()` call; from the unselected state
(and from out-of-range indices) the round trip does not return to the
start. -/
theorem c6_amended (l : StatefulList Cand) (i : Nat)
    (hsel : l.state.selected = some i) (hlt : i < l.items.length) :
    ∃ l2, StatefulList.next l = some l2
      ∧ StatefulList.previous l2 = some l := by
  obtain ⟨⟨off, sel⟩, items⟩ := l
  simp only at hsel hlt
  subst hsel
  rcases Nat.lt_or_ge (i + 1) items.length with hc | hc
  · refine ⟨⟨⟨off, some (i + 1)⟩, items⟩, ?_, ?_⟩
    · have h1 := next_selected off i items hlt
      rwa [Nat.mod_eq_of_lt hc] at h1
    · simp [StatefulList.previous, ListState.select]
  · have heq : i + 1 = items.length := by omega
    refine ⟨⟨⟨off, some 0⟩, items⟩, ?_, ?_⟩
    · have h1 := next_selected off i items hlt
      rwa [heq, Nat.mod_self] at h1
    · have hi : items.length - 1 = i := by omega
      have hone : 1 ≤ items.length := by omega
      simp [StatefulList.previous, usizeSub, hone, ListState.select, hi]

/-- C6 witness: on [("a","A"), ("b","B")] with index 0 selected, `next`
then `previous` returns to index 0. -/
theorem c6_witness :
    ∃ l2, StatefulList.next
        (⟨⟨0, some 0⟩, [("a", "A"), ("b", "B")]⟩ : StatefulList Cand) = some l2
      ∧ StatefulList.previous l2
        = some ⟨⟨0, some 0⟩, [("a", "A"), ("b", "B")]⟩ :=
  c6_amended ⟨⟨0, some 0⟩, [("a", "A"), ("b", "B")]⟩ 0 rfl (by decide)

/-- C7 (counterexample): the claim says `next()` applied `N` times returns
the index to its starting value for every starting selection state of a
non-empty list of length `N`; but from the unselected state on
[("a","A")] (N = 1), one `next()` yields index 0, not the unselected
start. -/
theorem c7_counterexample :
    ¬ (∀ (l : StatefulList Cand), l.items ≠ [] →
        nextN l l.items.length = some l) := by
  intro h
  have h0 := h ⟨⟨0, none⟩, [("a", "A")]⟩ (by decide)
  exact absurd h0 (by decide)

/-- C7 (amended): for every candidate list of length `N` and every state
in which an in-range index is selected, calling `next()` exactly `N` times
returns the selection to its starting value; from the unselected state the
cycle is not closed. -/
theorem c7_amended (l : StatefulList Cand) (i : Nat)
    (hsel : l.state.selected = some i) (hlt : i < l.items.length) :
    nextN l l.items.length = some l := by
  obtain ⟨⟨off, sel⟩, items⟩ := l
  simp only at hsel hlt
  subst hsel
  rw [nextN_selected off i items.length items hlt]
  have harith : (i + items.length) % items.length = i := by
    rw [Nat.add_mod_right, Nat.mod_eq_of_lt hlt]
  rw [harith]

/-- C7 witness: three `next()` calls on a 3-element list starting at
index 1 return to index 1. -/
theorem c7_witness :
    nextN (⟨⟨0, some 1⟩, [("a", "A"), ("b", "B"), ("c", "C")]⟩ : StatefulList Cand) 3
      = some ⟨⟨0, some 1⟩, [("a", "A"), ("b", "B"), ("c", "C")]⟩ :=
  c7_amended ⟨⟨0, some 1⟩, [("a", "A"), ("b", "B"), ("c", "C")]⟩ 1 rfl (by decide)

/-- C1 (counterexample): the claim says `restore_terminal` runs exactly
once on every exit path of the widget invocation; but when
`run_list_selection` returns an error (cancellation or internal failure),
the `?` on `src/main.rs:375` propagates it before the
`restore_terminal` call on line 376, so the restore count stays 0 and the
terminal remains in raw mode. -/
theorem c1_counterexample :
    ¬ (∀ (sel : SelectionResult) (t : TerminalState),
        (dbLoginArm sel t).2.restoreCount = t.restoreCount + 1
        ∧ (dbLoginArm sel t).2.rawMode = false) := by
  intro h
  have h0 := (h (.err "Nothing selected") ⟨false, 0⟩).1
  exact absurd h0 (by decide)

/-- C1 (amended): `restore_terminal` runs exactly once on the success
path of the widget invocation; on every error path (cancellation via
'q'/Ctrl+C or internal failure) it does not run at all and the terminal
is left in raw mode, because the `?` after `run_list_selection`
propagates the error before the restore call. -/
theorem c1_amended (sel : SelectionResult) (t : TerminalState) :
    (∀ kv, sel = SelectionResult.ok kv →
        (dbLoginArm sel t).2.restoreCount = t.restoreCount + 1
        ∧ (dbLoginArm sel t).2.rawMode = false)
    ∧ (∀ msg, sel = SelectionResult.err msg →
        (dbLoginArm sel t).2.restoreCount = t.restoreCount
        ∧ (dbLoginArm sel t).2.rawMode = true) := by
  constructor
  · rintro kv rfl
    exact ⟨rfl, rfl⟩
  · rintro msg rfl
    exact ⟨rfl, rfl⟩

/-- C1 witness: with a successful selection the restore count goes from 0
to 1 and raw mode is off; with the cancellation error it stays 0 and raw
mode is left on. -/
theorem c1_witness :
    ((dbLoginArm (.ok ("a", "A")) ⟨false, 0⟩).2.restoreCount = 0 + 1
        ∧ (dbLoginArm (.ok ("a", "A")) ⟨false, 0⟩).2.rawMode = false)
    ∧ ((dbLoginArm (.err "Nothing selected") ⟨false, 0⟩).2.restoreCount = 0
        ∧ (dbLoginArm (.err "Nothing selected") ⟨false, 0⟩).2.rawMode = true) :=
  ⟨(c1_amended (.ok ("a", "A")) ⟨false, 0⟩).1 ("a", "A") rfl,
   (c1_amended (.err "Nothing selected") ⟨false, 0⟩).2 "Nothing selected" rfl⟩

end Jwctl
